import Mathlib

/-!
Verification of `src/include/hermes_shm/data_structures/smart_ptr/smart_ptr_base.h`.

Shallow embedding of the smart-pointer layer over the external-allocation backend
(`_RefNoShm`) and, for the embedded backend, of the shared-header state acted on by
`_RefShm::shm_destroy`. Raw pointers are modelled as natural numbers, with `0`
standing for `nullptr`. The allocator, the process-wide allocator registry and the
locator-resolution context are external collaborators whose code is not under
`src/`; those pieces are modelled from the spec's contracts (sections 3, 4.1 and 6)
and their doc comments say so. Undefined behavior — the code reading through an
allocator field that was never set — is modelled by an `Option.none` result.
The `unique` and `destructable` template arguments of the C++ class templates are
type-level `Bool` parameters (for `smart_ptr_base`) or explicit `Bool` arguments
(for the backend operations they gate).
-/

namespace hermes_shm.ipc

variable {T : Type}

/-- Modelled from the spec: an allocator (external collaborator, spec section 6) is
identified by an allocator id and converts between raw pointers and segment-relative
offsets against its segment base. -/
structure Allocator where
  idVal : Nat
  base : Nat
deriving DecidableEq

/-- Models Allocator::GetId(). -/
def Allocator.GetId (a : Allocator) : Nat := a.idVal

/-- Models Allocator::Convert<T, PointerT>(rawPointer): raw pointer to
segment-relative offset. -/
def Allocator.Convert (a : Allocator) (p : Nat) : Nat := p - a.base

/-- Modelled from the spec: the observable state of the allocator collaborator's
segment — the live externally-allocated objects (address, value), the next fresh
address handed out, a counter of FreePtr calls, and a flag recording that an address
with no live object was freed (a double free). -/
structure HeapState (T : Type) where
  mem : List (Nat × T)
  next : Nat
  freeCount : Nat
  doubleFree : Bool
deriving DecidableEq

/-- Value of the live object at address `p`, if any. -/
def HeapState.lookup (st : HeapState T) (p : Nat) : Option T :=
  (st.mem.find? (fun e => e.fst == p)).map Prod.snd

/-- Well-formed heap: every live address is below `next`, and `next` is never the
null address. -/
def HeapState.WF (st : HeapState T) : Prop :=
  0 < st.next ∧ ∀ e ∈ st.mem, e.fst < st.next

/-- Modelled from the spec: Allocator::AllocateConstructObjs<T, OffsetPointer>(1, p,
args...) (spec section 6) allocates storage for exactly one object, constructs it,
and returns the raw pointer. -/
def Allocator.AllocateConstructObjs (a : Allocator) (v : T) (st : HeapState T) :
    Nat × HeapState T :=
  (st.next, { st with mem := (st.next, v) :: st.mem, next := st.next + 1 })

/-- Modelled from the spec: Allocator::FreePtr<T>(rawPointer) (spec section 6) runs
the destructor and frees the storage at `p`. Freeing an address with no live object
records a double free. -/
def Allocator.FreePtr (a : Allocator) (p : Nat) (st : HeapState T) : HeapState T :=
  if (st.lookup p).isSome then
    { st with mem := st.mem.filter (fun e => e.fst != p),
              freeCount := st.freeCount + 1 }
  else
    { st with freeCount := st.freeCount + 1, doubleFree := true }

/-- Modelled from the spec: the process-wide allocator registry (memory_registry.h,
not under src/): a default allocator plus a table from allocator ids to allocators. -/
structure MemoryRegistry where
  defaultAlloc : Allocator
  table : List (Nat × Allocator)

/-- Models MemoryRegistry::GetDefaultAllocator(). -/
def MemoryRegistry.GetDefaultAllocator (r : MemoryRegistry) : Allocator :=
  r.defaultAlloc

/-- Modelled from the spec: registry lookup of an allocator by id, used when a
locator is resolved (spec section 6); `none` when the id is not registered. -/
def MemoryRegistry.GetAllocator (r : MemoryRegistry) (i : Nat) : Option Allocator :=
  (r.table.find? (fun e => e.fst == i)).map Prod.snd

/-- Models TypedPointer<T> = (AllocatorId, segment-relative offset). -/
structure TypedPointer (T : Type) where
  allocator_id_ : Nat
  off_ : Nat
deriving DecidableEq

/-- Models TypedAtomicPointer<T>: identical field semantics to TypedPointer. -/
structure TypedAtomicPointer (T : Type) where
  allocator_id_ : Nat
  off_ : Nat
deriving DecidableEq

/-- Models ShmDeserialize<T>: the resolution context (resolved raw pointer to the
object, allocator). -/
structure ShmDeserialize (T : Type) where
  header_ : Nat
  alloc_ : Allocator
deriving DecidableEq

/-- Modelled from the spec: ShmDeserialize<T>(const TypedPointer<T>&)
(shm_archive.h, not under src/) resolves the locator through the registry: the
allocator is looked up by id and the offset is converted back to a raw pointer
(spec section 6); `none` when the id is not registered. -/
def ShmDeserialize.ofTypedPointer (reg : MemoryRegistry) (ar : TypedPointer T) :
    Option (ShmDeserialize T) :=
  (reg.GetAllocator ar.allocator_id_).map (fun a => ⟨a.base + ar.off_, a⟩)

/-- Modelled from the spec: ShmDeserialize<T>(const TypedAtomicPointer<T>&), same
resolution as for TypedPointer. -/
def ShmDeserialize.ofTypedAtomicPointer (reg : MemoryRegistry)
    (ar : TypedAtomicPointer T) : Option (ShmDeserialize T) :=
  (reg.GetAllocator ar.allocator_id_).map (fun a => ⟨a.base + ar.off_, a⟩)

/-- Models _RefNoShm<T, destructable>: a raw pointer (`0` = nullptr) plus the
allocator owning the pointee (`none` = the field was never set and is invalid). -/
structure _RefNoShm (T : Type) where
  obj_ : Nat
  alloc_ : Option Allocator
deriving DecidableEq

/-- Models _RefNoShm::shm_init(Allocator *alloc, args...): record the allocator,
then allocate and construct one object and record its pointer. -/
def _RefNoShm.shm_init (alloc : Allocator) (v : T) (st : HeapState T) :
    _RefNoShm T × HeapState T :=
  let res := alloc.AllocateConstructObjs v st
  (⟨res.fst, some alloc⟩, res.snd)

/-- Models _RefNoShm::shm_init(args...): resolve the process-wide default
allocator, then delegate to the allocator-supplied form. -/
def _RefNoShm.shm_init_default (reg : MemoryRegistry) (v : T) (st : HeapState T) :
    _RefNoShm T × HeapState T :=
  _RefNoShm.shm_init reg.GetDefaultAllocator v st

/-- Models _RefNoShm::get(): the stored raw pointer. -/
def _RefNoShm.get (r : _RefNoShm T) : Nat := r.obj_

/-- Models _RefNoShm::shm_strong_copy(other): shallow copy of (obj_, alloc_) from
`other`; `other` is not modified. -/
def _RefNoShm.shm_strong_copy (r other : _RefNoShm T) : _RefNoShm T :=
  ⟨other.obj_, other.alloc_⟩

/-- Models _RefNoShm::shm_deserialize(const ShmDeserialize<T> &ar):
`obj_ := ar.header_; alloc_ := ar.alloc_`. -/
def _RefNoShm.shm_deserialize_ctx (r : _RefNoShm T) (ar : ShmDeserialize T) :
    _RefNoShm T :=
  ⟨ar.header_, some ar.alloc_⟩

/-- Models _RefNoShm::shm_deserialize(T &ar): `obj_ := &ar`; the allocator field is
left exactly as it was (the source notes it is not valid in this mode). -/
def _RefNoShm.shm_deserialize_obj (r : _RefNoShm T) (addr : Nat) : _RefNoShm T :=
  { r with obj_ := addr }

/-- Models _RefNoShm::shm_serialize(PointerT &ar):
`ar := (alloc_->GetId(), alloc_->Convert(obj_))`; `none` models the undefined
dereference of an allocator field that was never set. -/
def _RefNoShm.shm_serialize (r : _RefNoShm T) : Option (TypedPointer T) :=
  r.alloc_.map (fun a => ⟨a.GetId, a.Convert r.obj_⟩)

/-- Models _RefNoShm::shm_destroy(): if destructable and `obj_` is non-null,
`alloc_->FreePtr(obj_)`; otherwise nothing happens. `none` models the undefined
dereference of an allocator field that was never set. -/
def _RefNoShm.shm_destroy (destructable : Bool) (r : _RefNoShm T)
    (st : HeapState T) : Option (_RefNoShm T × HeapState T) :=
  if destructable then
    if r.obj_ ≠ 0 then
      match r.alloc_ with
      | some a => some (r, a.FreePtr r.obj_ st)
      | none => none
    else some (r, st)
  else some (r, st)

/-- Modelled from the spec: the shared state of a self-describing shared-memory
element (spec section 4.1): its value, the header ownership bit toggled by
SetHeaderOwned/UnsetHeaderOwned, and whether the element's own shm_destroy has torn
its data down. -/
structure ShmObjState (T : Type) where
  data : T
  headerOwned : Bool
  destroyed : Bool
deriving DecidableEq

/-- Models T::SetHeaderOwned() (ShmContainer contract, not under src/). -/
def ShmObjState.SetHeaderOwned (o : ShmObjState T) : ShmObjState T :=
  { o with headerOwned := true }

/-- Models T::UnsetHeaderOwned() (ShmContainer contract, not under src/). -/
def ShmObjState.UnsetHeaderOwned (o : ShmObjState T) : ShmObjState T :=
  { o with headerOwned := false }

/-- Modelled from the spec: the element's own shm_destroy (ShmContainer contract in
shm_smart_ptr.h, not under src/) tears its data down iff the header ownership bit is
set; otherwise it leaves the state alone. -/
def ShmObjState.shm_destroy (o : ShmObjState T) : ShmObjState T :=
  if o.headerOwned then { o with destroyed := true } else o

/-- Models _RefShm::shm_destroy() acting on the shared object state (src lines
96-103): if destructable then SetHeaderOwned else UnsetHeaderOwned, then the
element's own shm_destroy. -/
def _RefShm.shm_destroy (destructable : Bool) (o : ShmObjState T) : ShmObjState T :=
  ShmObjState.shm_destroy
    (if destructable then o.SetHeaderOwned else o.UnsetHeaderOwned)

/-- Models dereference of a _RefShm wrapper deserialized from a live object: the
inline element aliases the shared state, so reading it yields the current value. -/
def _RefShm.deref (o : ShmObjState T) : T := o.data

/-- Models smart_ptr_base<T, unique, destructable> over the external backend
(_RefNoShm): the stored backend reference plus the ownership flag. -/
structure smart_ptr_base (T : Type) (unique destructable : Bool) where
  obj_ : _RefNoShm T
  owner_ : Bool
deriving DecidableEq

variable {u d : Bool}

/-- Models smart_ptr_base(): the default constructor does nothing, so every field
holds whatever junk was left in the uninitialized memory. -/
def smart_ptr_base.mkDefault (junkPtr : Nat) (junkAlloc : Option Allocator)
    (junkOwner : Bool) : smart_ptr_base T u d :=
  ⟨⟨junkPtr, junkAlloc⟩, junkOwner⟩

/-- Models smart_ptr_base::shm_init(Allocator*, args...): backend shm_init; if
unique, the ownership flag is set true (otherwise it keeps its previous value). -/
def smart_ptr_base.shm_init (alloc : Allocator) (v : T) (w : smart_ptr_base T u d)
    (st : HeapState T) : smart_ptr_base T u d × HeapState T :=
  let res := _RefNoShm.shm_init alloc v st
  (⟨res.fst, if u then true else w.owner_⟩, res.snd)

/-- Models smart_ptr_base::shm_destroy(): delegates to the backend; neither the
ownership flag nor the backend fields are written. -/
def smart_ptr_base.shm_destroy (w : smart_ptr_base T u d) (st : HeapState T) :
    Option (smart_ptr_base T u d × HeapState T) :=
  (_RefNoShm.shm_destroy d w.obj_ st).map (fun res => (⟨res.fst, w.owner_⟩, res.snd))

/-- Models ~smart_ptr_base(): if unique and the ownership flag reads true,
shm_destroy; otherwise nothing. -/
def smart_ptr_base.dtor (w : smart_ptr_base T u d) (st : HeapState T) :
    Option (HeapState T) :=
  if u && w.owner_ then (smart_ptr_base.shm_destroy w st).map (fun res => res.snd)
  else some st

/-- Models smart_ptr_base::get(). -/
def smart_ptr_base.get (w : smart_ptr_base T u d) : Nat := w.obj_.get

/-- Value read through get() / operator*: the live object at the stored pointer. -/
def smart_ptr_base.deref (w : smart_ptr_base T u d) (st : HeapState T) : Option T :=
  st.lookup w.get

/-- Models smart_ptr_base::shm_strong_copy(other): backend strong copy; if unique,
the ownership flag is copied verbatim from `other`. The transfer of ownership is
commented out in the source, so `other` is never modified. -/
def smart_ptr_base.shm_strong_copy (w other : smart_ptr_base T u d) :
    smart_ptr_base T u d :=
  ⟨_RefNoShm.shm_strong_copy w.obj_ other.obj_, if u then other.owner_ else w.owner_⟩

/-- Models smart_ptr_base(const smart_ptr_base &other): the copy constructor runs
only `obj_.shm_strong_copy(other.obj_)`; the ownership flag is never written and
keeps the uninitialized junk. -/
def smart_ptr_base.copyCtor (junkPtr : Nat) (junkAlloc : Option Allocator)
    (junkOwner : Bool) (other : smart_ptr_base T u d) : smart_ptr_base T u d :=
  ⟨_RefNoShm.shm_strong_copy ⟨junkPtr, junkAlloc⟩ other.obj_, junkOwner⟩

/-- Models smart_ptr_base(smart_ptr_base &&other): shm_strong_copy(other) on a fresh
wrapper whose fields start as uninitialized junk. -/
def smart_ptr_base.moveCtor (junkPtr : Nat) (junkAlloc : Option Allocator)
    (junkOwner : Bool) (other : smart_ptr_base T u d) : smart_ptr_base T u d :=
  smart_ptr_base.shm_strong_copy ⟨⟨junkPtr, junkAlloc⟩, junkOwner⟩ other

/-- Models operator=(const smart_ptr_base &other): if this != &other,
shm_strong_copy(other). `self` records whether `other` is the very same object as
`w`; in that case the two C++ references coincide, so the arguments are equal. -/
def smart_ptr_base.copyAssign (self : Bool) (w other : smart_ptr_base T u d) :
    smart_ptr_base T u d :=
  if self then w else smart_ptr_base.shm_strong_copy w other

/-- Models operator=(smart_ptr_base &&other): same body as copy assignment. -/
def smart_ptr_base.moveAssign (self : Bool) (w other : smart_ptr_base T u d) :
    smart_ptr_base T u d :=
  if self then w else smart_ptr_base.shm_strong_copy w other

/-- Models smart_ptr_base::shm_deserialize(const ShmDeserialize<T>&): backend
deserialize; if unique, the ownership flag is set false. -/
def smart_ptr_base.shm_deserialize_ctx (w : smart_ptr_base T u d)
    (ar : ShmDeserialize T) : smart_ptr_base T u d :=
  ⟨_RefNoShm.shm_deserialize_ctx w.obj_ ar, if u then false else w.owner_⟩

/-- Models smart_ptr_base::shm_deserialize(T &ar): backend deserialize from a live
object at `addr`; if unique, the ownership flag is set false. -/
def smart_ptr_base.shm_deserialize_obj (w : smart_ptr_base T u d) (addr : Nat) :
    smart_ptr_base T u d :=
  ⟨_RefNoShm.shm_deserialize_obj w.obj_ addr, if u then false else w.owner_⟩

/-- Models smart_ptr_base::shm_deserialize(const TypedPointer<T>&): build the
resolution context, then deserialize from it. -/
def smart_ptr_base.shm_deserialize_typed (reg : MemoryRegistry)
    (w : smart_ptr_base T u d) (ar : TypedPointer T) :
    Option (smart_ptr_base T u d) :=
  (ShmDeserialize.ofTypedPointer reg ar).map
    (fun c => smart_ptr_base.shm_deserialize_ctx w c)

/-- Models smart_ptr_base::shm_deserialize(const TypedAtomicPointer<T>&). -/
def smart_ptr_base.shm_deserialize_atomic (reg : MemoryRegistry)
    (w : smart_ptr_base T u d) (ar : TypedAtomicPointer T) :
    Option (smart_ptr_base T u d) :=
  (ShmDeserialize.ofTypedAtomicPointer reg ar).map
    (fun c => smart_ptr_base.shm_deserialize_ctx w c)

/-- Models smart_ptr_base(const TypedPointer<T> &ar): default-construct (junk
fields), then shm_deserialize(ar). -/
def smart_ptr_base.ctor_typed (reg : MemoryRegistry) (ar : TypedPointer T)
    (junkPtr : Nat) (junkAlloc : Option Allocator) (junkOwner : Bool) :
    Option (smart_ptr_base T u d) :=
  smart_ptr_base.shm_deserialize_typed reg
    (smart_ptr_base.mkDefault junkPtr junkAlloc junkOwner) ar

/-- Models smart_ptr_base(const TypedAtomicPointer<T> &ar). -/
def smart_ptr_base.ctor_atomic (reg : MemoryRegistry) (ar : TypedAtomicPointer T)
    (junkPtr : Nat) (junkAlloc : Option Allocator) (junkOwner : Bool) :
    Option (smart_ptr_base T u d) :=
  smart_ptr_base.shm_deserialize_atomic reg
    (smart_ptr_base.mkDefault junkPtr junkAlloc junkOwner) ar

/-- Models smart_ptr_base(const ShmDeserialize<T> &ar). -/
def smart_ptr_base.ctor_ctx (ar : ShmDeserialize T) (junkPtr : Nat)
    (junkAlloc : Option Allocator) (junkOwner : Bool) : smart_ptr_base T u d :=
  smart_ptr_base.shm_deserialize_ctx
    (smart_ptr_base.mkDefault junkPtr junkAlloc junkOwner) ar

/-- Models smart_ptr_base(T &ar): deserialize from a live object at `addr`. -/
def smart_ptr_base.ctor_obj (addr : Nat) (junkPtr : Nat)
    (junkAlloc : Option Allocator) (junkOwner : Bool) : smart_ptr_base T u d :=
  smart_ptr_base.shm_deserialize_obj
    (smart_ptr_base.mkDefault junkPtr junkAlloc junkOwner) addr

/-- Models smart_ptr_base(ShmArchive<T> &ar, Allocator *alloc): deserialize from
ShmDeserialize<T>(ar.get(), alloc); the archive is modelled by the address of its
preallocated storage. -/
def smart_ptr_base.ctor_archive (addr : Nat) (alloc : Allocator) (junkPtr : Nat)
    (junkAlloc : Option Allocator) (junkOwner : Bool) : smart_ptr_base T u d :=
  smart_ptr_base.shm_deserialize_ctx
    (smart_ptr_base.mkDefault junkPtr junkAlloc junkOwner) ⟨addr, alloc⟩

/-- Models smart_ptr_base::shm_serialize(TypedPointer<T> &ar). -/
def smart_ptr_base.shm_serialize (w : smart_ptr_base T u d) :
    Option (TypedPointer T) :=
  _RefNoShm.shm_serialize w.obj_

/-- Models smart_ptr_base::shm_serialize(TypedAtomicPointer<T> &ar). -/
def smart_ptr_base.shm_serialize_atomic (w : smart_ptr_base T u d) :
    Option (TypedAtomicPointer T) :=
  w.obj_.alloc_.map (fun a => ⟨a.GetId, a.Convert w.obj_.obj_⟩)

/-- Models `mptr<T> = smart_ptr_base<T, false, true>`: non-unique, destructable. -/
abbrev mptr (T : Type) : Type := smart_ptr_base T false true

/-- Models `Ref<T> = smart_ptr_base<T, false, false>`: non-unique,
non-destructable. -/
abbrev Ref (T : Type) : Type := smart_ptr_base T false false

/-- Models `uptr<T> = smart_ptr_base<T, true, true>`: unique, destructable. -/
abbrev uptr (T : Type) : Type := smart_ptr_base T true true

/-! Auxiliary lemmas about the heap model, shared by several proofs below. -/

/-- Auxiliary: filtering out an address lying above every live address leaves the
list unchanged. -/
theorem filter_bne_of_forall_lt (l : List (Nat × T)) (p : Nat)
    (h : ∀ e ∈ l, e.fst < p) : l.filter (fun e => e.fst != p) = l := by
  rw [List.filter_eq_self]
  intro e he
  have := h e he
  simp only [bne_iff_ne, ne_eq]
  omega

/-- Auxiliary: no live object sits at an address lying above every live address. -/
theorem find_eq_none_of_forall_lt (l : List (Nat × T)) (p : Nat)
    (h : ∀ e ∈ l, e.fst < p) : l.find? (fun e => e.fst == p) = none := by
  rw [List.find?_eq_none]
  intro e he
  have := h e he
  simp only [beq_iff_eq]
  omega

/-! Claim theorems. -/

/-- C8: self-assignment and self-move-assignment are identity operations: with the
`this != &other` guard the wrapper is returned untouched, and even the unguarded
shm_strong_copy of a wrapper from itself changes no field (backend pointer,
allocator, ownership flag). -/
theorem self_assignment_identity (u d : Bool) (w : smart_ptr_base T u d) :
    smart_ptr_base.copyAssign true w w = w ∧
    smart_ptr_base.moveAssign true w w = w ∧
    smart_ptr_base.shm_strong_copy w w = w ∧
    smart_ptr_base.copyAssign false w w = w ∧
    smart_ptr_base.moveAssign false w w = w := by
  have h : smart_ptr_base.shm_strong_copy w w = w := by
    cases u <;> rfl
  exact ⟨rfl, rfl, h, by simpa [smart_ptr_base.copyAssign] using h,
    by simpa [smart_ptr_base.moveAssign] using h⟩

/-- C9: the default constructor initializes nothing — every field of the wrapper is
exactly the junk left in the uninitialized memory — and for a unique wrapper the
destructor's auto-destroy decision reads that junk ownership flag: two junk values
for the flag lead to observably different destructor outcomes, so the behavior is
not defined by the code. -/
theorem default_ctor_leaves_owner_indeterminate :
    (∀ (T : Type) (u d : Bool) (jp : Nat) (ja : Option Allocator) (jo : Bool),
      (smart_ptr_base.mkDefault jp ja jo : smart_ptr_base T u d).owner_ = jo ∧
      (smart_ptr_base.mkDefault jp ja jo : smart_ptr_base T u d).obj_.obj_ = jp ∧
      (smart_ptr_base.mkDefault jp ja jo : smart_ptr_base T u d).obj_.alloc_ = ja) ∧
    smart_ptr_base.dtor (smart_ptr_base.mkDefault 5 none true : uptr Nat)
      ⟨[], 1, 0, false⟩ = none ∧
    smart_ptr_base.dtor (smart_ptr_base.mkDefault 5 none false : uptr Nat)
      ⟨[], 1, 0, false⟩ = some ⟨[], 1, 0, false⟩ ∧
    (none : Option (HeapState Nat)) ≠ some ⟨[], 1, 0, false⟩ := by
  exact ⟨fun T u d jp ja jo => ⟨rfl, rfl, rfl⟩, by decide, by decide, by decide⟩

/-- C2 fails on the copy constructor: at this concrete input, copy assignment, move
construction and move assignment all copy the ownership flag verbatim from the
source (owner true), but the copy constructor writes only the backend fields and the
destination's flag keeps the uninitialized junk — here false, while the source's
flag is true and unchanged. -/
theorem copy_ctor_leaves_owner_junk :
    (smart_ptr_base.copyCtor 0 none false
      (⟨⟨1, some ⟨1, 0⟩⟩, true⟩ : uptr Nat)).owner_ = false ∧
    (⟨⟨1, some ⟨1, 0⟩⟩, true⟩ : uptr Nat).owner_ = true ∧
    (smart_ptr_base.copyCtor 0 none false
      (⟨⟨1, some ⟨1, 0⟩⟩, true⟩ : uptr Nat)).obj_ =
      (⟨⟨1, some ⟨1, 0⟩⟩, true⟩ : uptr Nat).obj_ ∧
    (smart_ptr_base.moveCtor 0 none false
      (⟨⟨1, some ⟨1, 0⟩⟩, true⟩ : uptr Nat)).owner_ = true ∧
    (smart_ptr_base.copyAssign false (⟨⟨2, none⟩, false⟩ : uptr Nat)
      (⟨⟨1, some ⟨1, 0⟩⟩, true⟩ : uptr Nat)).owner_ = true ∧
    (smart_ptr_base.moveAssign false (⟨⟨2, none⟩, false⟩ : uptr Nat)
      (⟨⟨1, some ⟨1, 0⟩⟩, true⟩ : uptr Nat)).owner_ = true := by
  decide

/-- C5: _RefNoShm::shm_destroy frees the object through Allocator::FreePtr exactly
when the wrapper is configured destructible and the stored pointer is non-null — and
that free bumps the allocator's free counter — while in every other case it is a
no-op returning the backend fields, the heap, and hence the pointed-to object,
unchanged. -/
theorem refnoshm_destroy_frees_iff (r : _RefNoShm T) (st : HeapState T)
    (a : Allocator) :
    (r.alloc_ = some a → r.obj_ ≠ 0 →
      _RefNoShm.shm_destroy true r st = some (r, a.FreePtr r.obj_ st) ∧
      (a.FreePtr r.obj_ st).freeCount = st.freeCount + 1) ∧
    _RefNoShm.shm_destroy false r st = some (r, st) ∧
    (r.obj_ = 0 → _RefNoShm.shm_destroy true r st = some (r, st)) := by
  refine ⟨fun halloc hptr => ⟨?_, ?_⟩, rfl, fun hptr => ?_⟩
  · simp [_RefNoShm.shm_destroy, halloc, hptr]
  · by_cases hl : (st.lookup r.obj_).isSome <;> simp [Allocator.FreePtr, hl]
  · simp [_RefNoShm.shm_destroy, hptr]

/-- Witness for C5 at a concrete backend reference, heap and allocator. -/
theorem refnoshm_destroy_frees_iff_witness :
    ((⟨3, some ⟨1, 0⟩⟩ : _RefNoShm Nat).alloc_ = some ⟨1, 0⟩ →
      (⟨3, some ⟨1, 0⟩⟩ : _RefNoShm Nat).obj_ ≠ 0 →
      _RefNoShm.shm_destroy true (⟨3, some ⟨1, 0⟩⟩ : _RefNoShm Nat)
          ⟨[(3, 7)], 4, 0, false⟩ =
        some (⟨3, some ⟨1, 0⟩⟩,
          Allocator.FreePtr ⟨1, 0⟩ 3 ⟨[(3, 7)], 4, 0, false⟩) ∧
      (Allocator.FreePtr ⟨1, 0⟩ 3
        (⟨[(3, 7)], 4, 0, false⟩ : HeapState Nat)).freeCount = 0 + 1) ∧
    _RefNoShm.shm_destroy false (⟨3, some ⟨1, 0⟩⟩ : _RefNoShm Nat)
        ⟨[(3, 7)], 4, 0, false⟩ =
      some (⟨3, some ⟨1, 0⟩⟩, ⟨[(3, 7)], 4, 0, false⟩) ∧
    ((⟨3, some ⟨1, 0⟩⟩ : _RefNoShm Nat).obj_ = 0 →
      _RefNoShm.shm_destroy true (⟨3, some ⟨1, 0⟩⟩ : _RefNoShm Nat)
          ⟨[(3, 7)], 4, 0, false⟩ =
        some (⟨3, some ⟨1, 0⟩⟩, ⟨[(3, 7)], 4, 0, false⟩)) :=
  refnoshm_destroy_frees_iff ⟨3, some ⟨1, 0⟩⟩ ⟨[(3, 7)], 4, 0, false⟩ ⟨1, 0⟩

/-- C6 is false as stated: on the embedded backend, destroying an aliasing Ref is
not a no-op on the referenced object — at this concrete shared state (value 5,
header ownership bit set) the destroy call clears the header ownership bit, so the
object is modified. -/
theorem ref_destroy_modifies_header_counterexample :
    _RefShm.shm_destroy false (⟨5, true, false⟩ : ShmObjState Nat) ≠
      (⟨5, true, false⟩ : ShmObjState Nat) := by
  decide

/-- C6 (amended): an aliasing Ref built from a live object dereferences to that
object's current value; on the external backend (_RefNoShm) destroy is a complete
no-op leaving the backend fields and the heap unchanged; on the embedded backend
(_RefShm) destroy never tears the object's data down and leaves its value and its
destroyed-state unchanged, but it does clear the header ownership bit. -/
theorem ref_destroy_is_noop_amended (addr : Nat) (v : T) (st : HeapState T)
    (jp : Nat) (ja : Option Allocator) (jo : Bool) (o : ShmObjState T)
    (hlive : st.lookup addr = some v) :
    smart_ptr_base.deref (smart_ptr_base.ctor_obj addr jp ja jo : Ref T) st =
      some v ∧
    smart_ptr_base.shm_destroy (smart_ptr_base.ctor_obj addr jp ja jo : Ref T) st =
      some (smart_ptr_base.ctor_obj addr jp ja jo, st) ∧
    (∀ r : _RefNoShm T, _RefNoShm.shm_destroy false r st = some (r, st)) ∧
    (_RefShm.shm_destroy false o).data = o.data ∧
    (_RefShm.shm_destroy false o).destroyed = o.destroyed ∧
    (_RefShm.shm_destroy false o).headerOwned = false := by
  refine ⟨?_, rfl, fun r => rfl, ?_, ?_, ?_⟩
  · simpa [smart_ptr_base.deref, smart_ptr_base.ctor_obj, smart_ptr_base.get,
      smart_ptr_base.shm_deserialize_obj, smart_ptr_base.mkDefault,
      _RefNoShm.shm_deserialize_obj, _RefNoShm.get] using hlive
  · simp [_RefShm.shm_destroy, ShmObjState.shm_destroy,
      ShmObjState.UnsetHeaderOwned, ShmObjState.SetHeaderOwned]
  · simp [_RefShm.shm_destroy, ShmObjState.shm_destroy,
      ShmObjState.UnsetHeaderOwned, ShmObjState.SetHeaderOwned]
  · simp [_RefShm.shm_destroy, ShmObjState.shm_destroy,
      ShmObjState.UnsetHeaderOwned, ShmObjState.SetHeaderOwned]

/-- Witness for C6 (amended) at a concrete live object and heap. -/
theorem ref_destroy_is_noop_amended_witness :
    HeapState.lookup (⟨[(3, 9)], 4, 0, false⟩ : HeapState Nat) 3 = some 9 ∧
    (smart_ptr_base.deref
        (smart_ptr_base.ctor_obj 3 0 none false : Ref Nat)
        ⟨[(3, 9)], 4, 0, false⟩ = some 9 ∧
      smart_ptr_base.shm_destroy
          (smart_ptr_base.ctor_obj 3 0 none false : Ref Nat)
          ⟨[(3, 9)], 4, 0, false⟩ =
        some (smart_ptr_base.ctor_obj 3 0 none false, ⟨[(3, 9)], 4, 0, false⟩) ∧
      (∀ r : _RefNoShm Nat,
        _RefNoShm.shm_destroy false r ⟨[(3, 9)], 4, 0, false⟩ =
          some (r, ⟨[(3, 9)], 4, 0, false⟩)) ∧
      (_RefShm.shm_destroy false (⟨9, true, false⟩ : ShmObjState Nat)).data =
        (⟨9, true, false⟩ : ShmObjState Nat).data ∧
      (_RefShm.shm_destroy false (⟨9, true, false⟩ : ShmObjState Nat)).destroyed =
        (⟨9, true, false⟩ : ShmObjState Nat).destroyed ∧
      (_RefShm.shm_destroy false
        (⟨9, true, false⟩ : ShmObjState Nat)).headerOwned = false) :=
  ⟨by decide, ref_destroy_is_noop_amended 3 9 ⟨[(3, 9)], 4, 0, false⟩ 0 none false
    ⟨9, true, false⟩ (by decide)⟩

/-- C3: for a unique wrapper, every deserializing constructor and every
shm_deserialize overload — from a TypedPointer, a TypedAtomicPointer, a
ShmDeserialize resolution context, a ShmArchive, or a live object reference — sets
the ownership flag to false, and the destructor of a wrapper so obtained never
destroys: the heap is returned unchanged. -/
theorem deserialize_always_nonowning (d : Bool) (w : smart_ptr_base T true d)
    (c : ShmDeserialize T) (addr : Nat) (reg : MemoryRegistry)
    (tp : TypedPointer T) (tap : TypedAtomicPointer T) (al : Allocator)
    (jp : Nat) (ja : Option Allocator) (jo : Bool) (st : HeapState T) :
    (smart_ptr_base.shm_deserialize_ctx w c).owner_ = false ∧
    (smart_ptr_base.shm_deserialize_obj w addr).owner_ = false ∧
    (∀ res, smart_ptr_base.shm_deserialize_typed reg w tp = some res →
      res.owner_ = false) ∧
    (∀ res, smart_ptr_base.shm_deserialize_atomic reg w tap = some res →
      res.owner_ = false) ∧
    (smart_ptr_base.ctor_ctx c jp ja jo : smart_ptr_base T true d).owner_ =
      false ∧
    (smart_ptr_base.ctor_obj addr jp ja jo : smart_ptr_base T true d).owner_ =
      false ∧
    (smart_ptr_base.ctor_archive addr al jp ja jo :
      smart_ptr_base T true d).owner_ = false ∧
    (∀ res, (smart_ptr_base.ctor_typed reg tp jp ja jo :
      Option (smart_ptr_base T true d)) = some res → res.owner_ = false) ∧
    (∀ res, (smart_ptr_base.ctor_atomic reg tap jp ja jo :
      Option (smart_ptr_base T true d)) = some res → res.owner_ = false) ∧
    smart_ptr_base.dtor (smart_ptr_base.shm_deserialize_ctx w c) st = some st := by
  refine ⟨rfl, rfl, ?_, ?_, rfl, rfl, rfl, ?_, ?_, rfl⟩ <;>
    intro res hres <;>
    [rw [smart_ptr_base.shm_deserialize_typed, Option.map_eq_some'] at hres;
     rw [smart_ptr_base.shm_deserialize_atomic, Option.map_eq_some'] at hres;
     rw [smart_ptr_base.ctor_typed, smart_ptr_base.shm_deserialize_typed,
       Option.map_eq_some'] at hres;
     rw [smart_ptr_base.ctor_atomic, smart_ptr_base.shm_deserialize_atomic,
       Option.map_eq_some'] at hres] <;>
    (obtain ⟨c2, hc2, hres⟩ := hres; subst hres; rfl)

/-- Witness for C3 at a concrete wrapper, locators, registry and heap. -/
theorem deserialize_always_nonowning_witness :
    (smart_ptr_base.shm_deserialize_ctx (⟨⟨9, none⟩, true⟩ : uptr Nat)
      ⟨3, ⟨1, 0⟩⟩).owner_ = false ∧
    (smart_ptr_base.shm_deserialize_obj (⟨⟨9, none⟩, true⟩ : uptr Nat)
      3).owner_ = false ∧
    (∀ res, smart_ptr_base.shm_deserialize_typed ⟨⟨1, 0⟩, [(1, ⟨1, 0⟩)]⟩
      (⟨⟨9, none⟩, true⟩ : uptr Nat) ⟨1, 3⟩ = some res → res.owner_ = false) ∧
    (∀ res, smart_ptr_base.shm_deserialize_atomic ⟨⟨1, 0⟩, [(1, ⟨1, 0⟩)]⟩
      (⟨⟨9, none⟩, true⟩ : uptr Nat) ⟨1, 3⟩ = some res → res.owner_ = false) ∧
    (smart_ptr_base.ctor_ctx ⟨3, ⟨1, 0⟩⟩ 0 none true : uptr Nat).owner_ = false ∧
    (smart_ptr_base.ctor_obj 3 0 none true : uptr Nat).owner_ = false ∧
    (smart_ptr_base.ctor_archive 3 ⟨1, 0⟩ 0 none true : uptr Nat).owner_ =
      false ∧
    (∀ res, (smart_ptr_base.ctor_typed ⟨⟨1, 0⟩, [(1, ⟨1, 0⟩)]⟩ ⟨1, 3⟩ 0 none true :
      Option (uptr Nat)) = some res → res.owner_ = false) ∧
    (∀ res, (smart_ptr_base.ctor_atomic ⟨⟨1, 0⟩, [(1, ⟨1, 0⟩)]⟩ ⟨1, 3⟩ 0 none true :
      Option (uptr Nat)) = some res → res.owner_ = false) ∧
    smart_ptr_base.dtor
      (smart_ptr_base.shm_deserialize_ctx (⟨⟨9, none⟩, true⟩ : uptr Nat)
        ⟨3, ⟨1, 0⟩⟩) ⟨[], 1, 0, false⟩ = some ⟨[], 1, 0, false⟩ :=
  deserialize_always_nonowning true ⟨⟨9, none⟩, true⟩ ⟨3, ⟨1, 0⟩⟩ 3
    ⟨⟨1, 0⟩, [(1, ⟨1, 0⟩)]⟩ ⟨1, 3⟩ ⟨1, 3⟩ ⟨1, 0⟩ 0 none true ⟨[], 1, 0, false⟩

/-- C4: the destructor invokes destroy exactly when the wrapper is unique and its
ownership flag reads true — in particular a wrapper that is not unique, or whose
flag is false, leaves the heap untouched — and a unique-and-destructible wrapper
initialized by shm_init and then dropped frees exactly one object: the allocated
object is gone again, the rest of the heap survives, the free counter goes up by
one, and no double free is recorded. -/
theorem dtor_destroys_iff_unique_owner (a : Allocator) (v : T) (w0 : uptr T)
    (st0 : HeapState T) (hWF : st0.WF) :
    (∀ (u' d' : Bool) (w : smart_ptr_base T u' d') (st : HeapState T),
      (u' && w.owner_) = false → smart_ptr_base.dtor w st = some st) ∧
    (∀ (d' : Bool) (w : smart_ptr_base T true d') (st : HeapState T),
      w.owner_ = true →
      smart_ptr_base.dtor w st =
        (_RefNoShm.shm_destroy d' w.obj_ st).map (fun res => res.snd)) ∧
    smart_ptr_base.dtor (smart_ptr_base.shm_init a v w0 st0).fst
        (smart_ptr_base.shm_init a v w0 st0).snd =
      some ⟨st0.mem, st0.next + 1, st0.freeCount + 1, st0.doubleFree⟩ := by
  obtain ⟨hpos, hlt⟩ := hWF
  have hne : st0.next ≠ 0 := by omega
  have hfil := filter_bne_of_forall_lt st0.mem st0.next hlt
  refine ⟨?_, ?_, ?_⟩
  · intro u' d' w st h
    simp [smart_ptr_base.dtor, h]
  · intro d' w st how
    cases hX : _RefNoShm.shm_destroy d' w.obj_ st <;>
      simp [smart_ptr_base.dtor, smart_ptr_base.shm_destroy, how, hX]
  · simp [smart_ptr_base.shm_init, _RefNoShm.shm_init,
      Allocator.AllocateConstructObjs, smart_ptr_base.dtor,
      smart_ptr_base.shm_destroy, _RefNoShm.shm_destroy, hne,
      Allocator.FreePtr, HeapState.lookup, List.find?, List.filter, hfil]

/-- Witness for C4 at a concrete allocator, value and heap. -/
theorem dtor_destroys_iff_unique_owner_witness :
    HeapState.WF (⟨[], 1, 0, false⟩ : HeapState Nat) ∧
    ((∀ (u' d' : Bool) (w : smart_ptr_base Nat u' d') (st : HeapState Nat),
      (u' && w.owner_) = false → smart_ptr_base.dtor w st = some st) ∧
    (∀ (d' : Bool) (w : smart_ptr_base Nat true d') (st : HeapState Nat),
      w.owner_ = true →
      smart_ptr_base.dtor w st =
        (_RefNoShm.shm_destroy d' w.obj_ st).map (fun res => res.snd)) ∧
    smart_ptr_base.dtor
        (smart_ptr_base.shm_init ⟨1, 0⟩ 7
          (smart_ptr_base.mkDefault 0 none false : uptr Nat)
          ⟨[], 1, 0, false⟩).fst
        (smart_ptr_base.shm_init ⟨1, 0⟩ 7
          (smart_ptr_base.mkDefault 0 none false : uptr Nat)
          ⟨[], 1, 0, false⟩).snd =
      some ⟨[], 1 + 1, 0 + 1, false⟩) :=
  ⟨⟨by decide, by decide⟩,
    dtor_destroys_iff_unique_owner ⟨1, 0⟩ 7
      (smart_ptr_base.mkDefault 0 none false) ⟨[], 1, 0, false⟩
      ⟨by decide, by decide⟩⟩

/-- C7: round-trip through a locator. Serializing an initialized unique owner
yields the locator (allocator id, converted pointer); deserializing a manual
pointer from that locator through a registry that resolves the id back to the same
allocator dereferences to the same value as the original. Dropping the two
wrappers, in either order, frees the object exactly once and records no double
free: the manual pointer's destructor never destroys, the owner's destructor frees
once. -/
theorem serialize_deserialize_roundtrip (a : Allocator) (reg : MemoryRegistry)
    (v : T) (w0 : uptr T) (jp : Nat) (ja : Option Allocator) (jo : Bool)
    (st0 : HeapState T) (w : uptr T) (st1 : HeapState T) (ar : TypedPointer T)
    (m : mptr T)
    (hreg : reg.GetAllocator a.GetId = some a)
    (hbase : a.base ≤ st0.next)
    (hWF : st0.WF)
    (hinit : smart_ptr_base.shm_init a v w0 st0 = (w, st1))
    (hser : smart_ptr_base.shm_serialize w = some ar)
    (hdeser : smart_ptr_base.ctor_typed reg ar jp ja jo = some m) :
    ar = ⟨a.GetId, a.Convert st0.next⟩ ∧
    smart_ptr_base.deref m st1 = some v ∧
    smart_ptr_base.deref w st1 = some v ∧
    smart_ptr_base.dtor m st1 = some st1 ∧
    smart_ptr_base.dtor w st1 =
      some ⟨st0.mem, st0.next + 1, st0.freeCount + 1, st0.doubleFree⟩ ∧
    smart_ptr_base.dtor m
        ⟨st0.mem, st0.next + 1, st0.freeCount + 1, st0.doubleFree⟩ =
      some ⟨st0.mem, st0.next + 1, st0.freeCount + 1, st0.doubleFree⟩ := by
  obtain ⟨hpos, hlt⟩ := hWF
  have hne : st0.next ≠ 0 := by omega
  have hfil := filter_bne_of_forall_lt st0.mem st0.next hlt
  simp only [smart_ptr_base.shm_init, _RefNoShm.shm_init,
    Allocator.AllocateConstructObjs, Prod.mk.injEq] at hinit
  obtain ⟨hw, hst1⟩ := hinit
  subst hw
  subst hst1
  simp only [smart_ptr_base.shm_serialize, _RefNoShm.shm_serialize,
    Option.map_some', Option.some.injEq] at hser
  subst hser
  have hreg2 : reg.GetAllocator a.idVal = some a := hreg
  have hba : a.base + Allocator.Convert a st0.next = st0.next := by
    simp only [Allocator.Convert]
    omega
  simp only [smart_ptr_base.ctor_typed, smart_ptr_base.shm_deserialize_typed,
    ShmDeserialize.ofTypedPointer, Allocator.GetId, hreg2, Option.map_some',
    hba, Option.some.injEq] at hdeser
  subst hdeser
  refine ⟨rfl, ?_, ?_, rfl, ?_, rfl⟩
  · simp [smart_ptr_base.deref, smart_ptr_base.get, _RefNoShm.get,
      smart_ptr_base.shm_deserialize_ctx, _RefNoShm.shm_deserialize_ctx,
      smart_ptr_base.mkDefault, HeapState.lookup, List.find?]
  · simp [smart_ptr_base.deref, smart_ptr_base.get, _RefNoShm.get,
      HeapState.lookup, List.find?]
  · simp [smart_ptr_base.dtor, smart_ptr_base.shm_destroy,
      _RefNoShm.shm_destroy, hne, Allocator.FreePtr, HeapState.lookup,
      List.find?, List.filter, hfil]

/-- Witness for C7 at a concrete allocator, registry, value and heap. -/
theorem serialize_deserialize_roundtrip_witness :
    MemoryRegistry.GetAllocator ⟨⟨1, 0⟩, [(1, ⟨1, 0⟩)]⟩
      (Allocator.GetId ⟨1, 0⟩) = some ⟨1, 0⟩ ∧
    (⟨1, 0⟩ : Allocator).base ≤ (⟨[], 1, 0, false⟩ : HeapState Nat).next ∧
    HeapState.WF (⟨[], 1, 0, false⟩ : HeapState Nat) ∧
    smart_ptr_base.shm_init ⟨1, 0⟩ 42
      (smart_ptr_base.mkDefault 0 none false : uptr Nat) ⟨[], 1, 0, false⟩ =
      (⟨⟨1, some ⟨1, 0⟩⟩, true⟩, ⟨[(1, 42)], 2, 0, false⟩) ∧
    smart_ptr_base.shm_serialize (⟨⟨1, some ⟨1, 0⟩⟩, true⟩ : uptr Nat) =
      some ⟨1, 1⟩ ∧
    smart_ptr_base.ctor_typed ⟨⟨1, 0⟩, [(1, ⟨1, 0⟩)]⟩ ⟨1, 1⟩ 0 none false =
      some (⟨⟨1, some ⟨1, 0⟩⟩, false⟩ : mptr Nat) ∧
    ((⟨1, 1⟩ : TypedPointer Nat) =
      ⟨Allocator.GetId ⟨1, 0⟩, Allocator.Convert ⟨1, 0⟩ 1⟩ ∧
    smart_ptr_base.deref (⟨⟨1, some ⟨1, 0⟩⟩, false⟩ : mptr Nat)
      ⟨[(1, 42)], 2, 0, false⟩ = some 42 ∧
    smart_ptr_base.deref (⟨⟨1, some ⟨1, 0⟩⟩, true⟩ : uptr Nat)
      ⟨[(1, 42)], 2, 0, false⟩ = some 42 ∧
    smart_ptr_base.dtor (⟨⟨1, some ⟨1, 0⟩⟩, false⟩ : mptr Nat)
      ⟨[(1, 42)], 2, 0, false⟩ = some ⟨[(1, 42)], 2, 0, false⟩ ∧
    smart_ptr_base.dtor (⟨⟨1, some ⟨1, 0⟩⟩, true⟩ : uptr Nat)
      ⟨[(1, 42)], 2, 0, false⟩ = some ⟨[], 1 + 1, 0 + 1, false⟩ ∧
    smart_ptr_base.dtor (⟨⟨1, some ⟨1, 0⟩⟩, false⟩ : mptr Nat)
      ⟨[], 1 + 1, 0 + 1, false⟩ = some ⟨[], 1 + 1, 0 + 1, false⟩) :=
  ⟨by decide, by decide, ⟨by decide, by decide⟩, by decide, by decide, by decide,
    serialize_deserialize_roundtrip ⟨1, 0⟩ ⟨⟨1, 0⟩, [(1, ⟨1, 0⟩)]⟩ 42
      (smart_ptr_base.mkDefault 0 none false) 0 none false ⟨[], 1, 0, false⟩
      ⟨⟨1, some ⟨1, 0⟩⟩, true⟩ ⟨[(1, 42)], 2, 0, false⟩ ⟨1, 1⟩
      ⟨⟨1, some ⟨1, 0⟩⟩, false⟩ (by decide) (by decide) ⟨by decide, by decide⟩
      (by decide) (by decide) (by decide)⟩

/-- C10: the wrapper's explicit shm_destroy writes neither the ownership flag nor
the stored pointer: after shm_init and one explicit shm_destroy, the unique wrapper
is bit-for-bit unchanged — the flag still reads true and the pointer still holds
the freed address — so the automatic destructor at end of scope frees the same
address a second time, and the allocator records a double free. -/
theorem explicit_destroy_then_dtor_double_frees (a : Allocator) (v : T)
    (w0 : uptr T) (st0 : HeapState T) (w w1 : uptr T) (st1 st2 : HeapState T)
    (hWF : st0.WF)
    (hinit : smart_ptr_base.shm_init a v w0 st0 = (w, st1))
    (hdestroy : smart_ptr_base.shm_destroy w st1 = some (w1, st2)) :
    w1 = w ∧ w1.owner_ = true ∧ w1.obj_.obj_ = st0.next ∧
    st2.freeCount = st0.freeCount + 1 ∧ st2.mem = st0.mem ∧
    smart_ptr_base.dtor w1 st2 =
      some ⟨st2.mem, st2.next, st2.freeCount + 1, true⟩ := by
  obtain ⟨hpos, hlt⟩ := hWF
  have hne : st0.next ≠ 0 := by omega
  have hfil := filter_bne_of_forall_lt st0.mem st0.next hlt
  have hfind := find_eq_none_of_forall_lt st0.mem st0.next hlt
  simp only [smart_ptr_base.shm_init, _RefNoShm.shm_init,
    Allocator.AllocateConstructObjs, Prod.mk.injEq] at hinit
  obtain ⟨hw, hst1⟩ := hinit
  subst hw
  subst hst1
  simp only [smart_ptr_base.shm_destroy, _RefNoShm.shm_destroy, hne, ne_eq,
    not_false_iff, if_true, Allocator.FreePtr, HeapState.lookup, List.find?,
    beq_self_eq_true, Option.map_some', Option.isSome_some, if_pos,
    List.filter, bne_self_eq_false, hfil, Option.some.injEq,
    Prod.mk.injEq] at hdestroy
  obtain ⟨hw1, hst2⟩ := hdestroy
  subst hw1
  subst hst2
  refine ⟨rfl, rfl, rfl, rfl, rfl, ?_⟩
  simp [smart_ptr_base.dtor, smart_ptr_base.shm_destroy, _RefNoShm.shm_destroy,
    hne, Allocator.FreePtr, HeapState.lookup, hfind]

/-- Witness for C10 at a concrete allocator, value and heap. -/
theorem explicit_destroy_then_dtor_double_frees_witness :
    HeapState.WF (⟨[], 1, 0, false⟩ : HeapState Nat) ∧
    smart_ptr_base.shm_init ⟨1, 0⟩ 7
      (smart_ptr_base.mkDefault 0 none false : uptr Nat) ⟨[], 1, 0, false⟩ =
      (⟨⟨1, some ⟨1, 0⟩⟩, true⟩, ⟨[(1, 7)], 2, 0, false⟩) ∧
    smart_ptr_base.shm_destroy (⟨⟨1, some ⟨1, 0⟩⟩, true⟩ : uptr Nat)
      ⟨[(1, 7)], 2, 0, false⟩ =
      some (⟨⟨1, some ⟨1, 0⟩⟩, true⟩, ⟨[], 2, 1, false⟩) ∧
    ((⟨⟨1, some ⟨1, 0⟩⟩, true⟩ : uptr Nat) = ⟨⟨1, some ⟨1, 0⟩⟩, true⟩ ∧
    (⟨⟨1, some ⟨1, 0⟩⟩, true⟩ : uptr Nat).owner_ = true ∧
    (⟨⟨1, some ⟨1, 0⟩⟩, true⟩ : uptr Nat).obj_.obj_ =
      (⟨[], 1, 0, false⟩ : HeapState Nat).next ∧
    (⟨[], 2, 1, false⟩ : HeapState Nat).freeCount =
      (⟨[], 1, 0, false⟩ : HeapState Nat).freeCount + 1 ∧
    (⟨[], 2, 1, false⟩ : HeapState Nat).mem =
      (⟨[], 1, 0, false⟩ : HeapState Nat).mem ∧
    smart_ptr_base.dtor (⟨⟨1, some ⟨1, 0⟩⟩, true⟩ : uptr Nat)
      ⟨[], 2, 1, false⟩ = some ⟨[], 2, 1 + 1, true⟩) :=
  ⟨⟨by decide, by decide⟩, by decide, by decide,
    explicit_destroy_then_dtor_double_frees ⟨1, 0⟩ 7
      (smart_ptr_base.mkDefault 0 none false) ⟨[], 1, 0, false⟩
      ⟨⟨1, some ⟨1, 0⟩⟩, true⟩ ⟨⟨1, some ⟨1, 0⟩⟩, true⟩
      ⟨[(1, 7)], 2, 0, false⟩ ⟨[], 2, 1, false⟩
      ⟨by decide, by decide⟩ (by decide) (by decide)⟩

end hermes_shm.ipc
